import Mathlib

/-!
Verification development for the ERC3 store-agent repository
(`main.py`, `store_agent.py`).

The Python sources are shallowly embedded as executable Lean definitions:

* `parse_task_range` and its helper `pyInt` model `main.parse_task_range`
  together with Python's `int()` conversion (restricted to the ASCII
  decimal fragment: optional surrounding whitespace, optional sign,
  a non-empty run of decimal digits — the only fragment the CLI exercises).
* `runTasks` and `main` model the task loop and session bookkeeping of
  `main.main` (lines 75-158), with the external effects (`start_session`,
  `session_status`, `start_task`, `run_agent`, `complete_task`,
  `submit_session`) recorded as an explicit event trace and the
  nondeterminism of each agent run abstracted into a `TaskOutcome`
  (did `run_agent` raise, and what evaluation `complete_task` returned).
* `list_products` … `checkout_basket` model the seven tool adapters of
  `store_agent.create_store_tools`; the remote `store_api.dispatch` is a
  parameter returning either a pydantic response (a list of fields),
  a domain `ApiException`, or any other exception.
* `model_dump_json` models pydantic's
  `model_dump_json(exclude_none=True, exclude_unset=True)`:
  a field is serialized iff it was explicitly set and its value is not
  `None`; `error_json` models `json.dumps({"error": message})` with
  Python's default `": "` separator.
-/

/-! ## Python `int()` on strings (ASCII decimal fragment)

Strings are handled through their character lists with structural
recursion, so every definition evaluates by kernel reduction. -/

/-- Fold a run of decimal digit characters into a natural number. -/
def digitsToNat (cs : List Char) : Nat :=
  cs.foldl (fun a c => a * 10 + (c.toNat - 48)) 0

/-- Strip leading and trailing whitespace, as Python `int()` does before
conversion. -/
def pyStrip (cs : List Char) : List Char :=
  ((cs.dropWhile Char.isWhitespace).reverse.dropWhile Char.isWhitespace).reverse

/-- Model of Python `int(s)` on a character list: strip surrounding
whitespace, allow one optional sign, then require a non-empty run of
ASCII decimal digits. Returns `none` where CPython raises `ValueError`. -/
def pyIntChars (s : List Char) : Option Int :=
  match pyStrip s with
  | [] => none
  | c :: rest =>
      if c = '-' then
        if rest ≠ [] ∧ rest.all Char.isDigit then some (-(digitsToNat rest : Int)) else none
      else if c = '+' then
        if rest ≠ [] ∧ rest.all Char.isDigit then some (digitsToNat rest : Int) else none
      else if (c :: rest).all Char.isDigit then some (digitsToNat (c :: rest) : Int)
      else none

/-- Model of Python `int(s)` on a string. -/
def pyInt (s : String) : Option Int :=
  pyIntChars s.toList

/-- Python's `split("-")` for the single-character separator `-`:
`"" → [""]`, `"-3" → ["", "3"]`, `"1-2-3" → ["1", "2", "3"]`. -/
def splitOnDash : List Char → List (List Char)
  | [] => [[]]
  | c :: rest =>
      if c = '-' then [] :: splitOnDash rest
      else
        match splitOnDash rest with
        | [] => [[c]]
        | seg :: segs => (c :: seg) :: segs

/-! ## `main.parse_task_range` -/

/-- The two `ValueError` provenances of `parse_task_range`: a failed
`int()` conversion, or the explicit range validation
`start < 1 or end > max_tasks or start > end`. Both are a Python
`ValueError` at runtime; we keep the provenance to state where a given
input fails. -/
inductive PErr where
  | intParseError
  | invalidRange
  deriving DecidableEq, Repr

/-- The start/end extraction of `parse_task_range` before validation:
if the argument contains `-`, split on `-` and convert the first two
segments with `int()` (Python's `parts[0]`, `parts[1]`); otherwise the
whole argument is converted and duplicated. -/
def parseStartEnd (task_arg : String) : Except PErr (Int × Int) :=
  if task_arg.toList.contains '-' then
    let parts := splitOnDash task_arg.toList
    match pyIntChars (parts.getD 0 []), pyIntChars (parts.getD 1 []) with
    | some s, some e => .ok (s, e)
    | _, _ => .error .intParseError
  else
    match pyInt task_arg with
    | some s => .ok (s, s)
    | none => .error .intParseError

/-- Model of `main.parse_task_range(task_arg, max_tasks)` (main.py 58-72):
extract `(start, end)` and raise `ValueError` unless
`1 ≤ start ≤ end ≤ max_tasks`. -/
def parse_task_range (task_arg : String) (max_tasks : Nat) : Except PErr (Int × Int) :=
  match parseStartEnd task_arg with
  | .error e => .error e
  | .ok (s, e) =>
      if s < 1 ∨ e > (max_tasks : Int) ∨ s > e then .error .invalidRange
      else .ok (s, e)

/-- Range parsing restricted to two already-split segments; used to state
that `parse_task_range` depends only on the first two `-`-separated
segments of its argument. -/
def segRange (a b : List Char) (max_tasks : Nat) : Except PErr (Int × Int) :=
  match pyIntChars a, pyIntChars b with
  | some s, some e =>
      if s < 1 ∨ e > (max_tasks : Int) ∨ s > e then .error .invalidRange
      else .ok (s, e)
  | _, _ => .error .intParseError

example : parse_task_range "3" 5 = .ok (3, 3) := rfl
example : parse_task_range "1-5" 5 = .ok (1, 5) := rfl
example : parse_task_range "1-2-3" 5 = .ok (1, 2) := rfl
example : parse_task_range "-3" 10 = .error .intParseError := rfl
example : parse_task_range "0-2" 5 = .error .invalidRange := rfl
example : parse_task_range "4-2" 5 = .error .invalidRange := rfl
example : parse_task_range "2-9" 5 = .error .invalidRange := rfl

/-! ## The task loop of `main.main` (main.py 75-158)

External effects are recorded as an event trace; the outcome of each
`run_agent` / `complete_task` pair is abstracted into a `TaskOutcome`. -/

/-- Abstraction of what happens when one task is run: whether
`run_agent` raises an exception, and the evaluation (`result.eval`,
carrying a score) that `complete_task` returns — `none` when
`result.eval` is absent. -/
structure TaskOutcome where
  agentRaises : Bool
  evalScore : Option Int
  deriving DecidableEq, Repr

/-- The observable calls `main` makes on the ERC3 core, in order. -/
inductive Event where
  | startSession
  | sessionStatus
  | startTask (n : Nat)
  | runAgentOk (n : Nat)
  | agentError (n : Nat)
  | completeTask (n : Nat)
  | submitSession
  deriving DecidableEq, Repr

/-- The score `main` attributes to a completed task:
`score = 0; if result.eval: score = result.eval.score` (main.py 140-142). -/
def scoreOf (t : TaskOutcome) : Int :=
  match t.evalScore with
  | some s => s
  | none => 0

/-- The trace of one loop iteration (main.py 129-137): `start_task`,
then `run_agent` (which either returns or raises a caught exception),
then `complete_task`. -/
def taskBlock (p : Nat × TaskOutcome) : List Event :=
  [Event.startTask p.1,
   if p.2.agentRaises then Event.agentError p.1 else Event.runAgentOk p.1,
   Event.completeTask p.1]

/-- The `for task_num, task in tasks_to_run` loop (main.py 124-150):
returns the emitted events, `completed_count`, and `stopped_early`.
Each iteration runs a full `taskBlock`; after it,
`if args.stop_on_fail and score == 0: stopped_early = True; break`. -/
def runTasks (stopOnFail : Bool) : List (Nat × TaskOutcome) → List Event × Nat × Bool
  | [] => ([], 0, false)
  | p :: rest =>
      if stopOnFail && (scoreOf p.2 == 0) then (taskBlock p, 1, true)
      else
        let r := runTasks stopOnFail rest
        (taskBlock p ++ r.1, r.2.1 + 1, r.2.2)

/-- The CLI arguments `main` consults after provider/model selection. -/
structure Args where
  task : Option String
  stop_on_fail : Bool
  listTasks : Bool
  deriving DecidableEq, Repr

/-- What one invocation of `main` did. -/
structure MainResult where
  trace : List Event
  completedCount : Nat
  stoppedEarly : Bool
  submitted : Bool
  deriving DecidableEq, Repr

/-- `tasks_to_run` (main.py 112-118): all tasks 1-indexed when `-t` is
absent, else the inclusive slice selected by `parse_task_range`. -/
def tasksToRun (argTask : Option String) (outcomes : List TaskOutcome) :
    Except PErr (List (Nat × TaskOutcome)) :=
  match argTask with
  | none => .ok (outcomes.enum.map (fun p => (p.1 + 1, p.2)))
  | some s =>
      match parse_task_range s outcomes.length with
      | .error e => .error e
      | .ok (st, en) =>
          .ok ((List.range' st.toNat (en.toNat + 1 - st.toNat)).map
                (fun i => (i, outcomes.getD (i - 1) ⟨false, none⟩)))

namespace Harness

/-- Model of `main.main` after argument parsing (main.py 75-158):
start a session, query its status, honor `-l` (list and return),
select `tasks_to_run`, run the loop, and
`if run_all and not stopped_early: core.submit_session(...)`.
The list of evaluations the harness would produce is `outcomes`,
one per task of the session. -/
def main (args : Args) (outcomes : List TaskOutcome) : Except PErr MainResult :=
  let pre := [Event.startSession, Event.sessionStatus]
  if args.listTasks then .ok ⟨pre, 0, false, false⟩
  else
    let run_all := args.task.isNone
    match tasksToRun args.task outcomes with
    | .error e => .error e
    | .ok toRun =>
        let r := runTasks args.stop_on_fail toRun
        let submitted := run_all && !r.2.2
        .ok ⟨pre ++ r.1 ++ (if submitted then [Event.submitSession] else []),
             r.2.1, r.2.2, submitted⟩

example :
    main ⟨none, false, false⟩ [⟨false, some 1⟩, ⟨true, none⟩] =
      .ok ⟨[Event.startSession, Event.sessionStatus,
            Event.startTask 1, Event.runAgentOk 1, Event.completeTask 1,
            Event.startTask 2, Event.agentError 2, Event.completeTask 2,
            Event.submitSession], 2, false, true⟩ := rfl

example :
    main ⟨none, true, false⟩ [⟨false, some 1⟩, ⟨true, none⟩, ⟨false, some 1⟩] =
      .ok ⟨[Event.startSession, Event.sessionStatus,
            Event.startTask 1, Event.runAgentOk 1, Event.completeTask 1,
            Event.startTask 2, Event.agentError 2, Event.completeTask 2],
           2, true, false⟩ := rfl

example :
    main ⟨some "2-3", false, false⟩ [⟨false, some 1⟩, ⟨false, some 2⟩, ⟨false, some 3⟩] =
      .ok ⟨[Event.startSession, Event.sessionStatus,
            Event.startTask 2, Event.runAgentOk 2, Event.completeTask 2,
            Event.startTask 3, Event.runAgentOk 3, Event.completeTask 3],
           2, false, false⟩ := rfl

example :
    main ⟨some "7", true, false⟩ [⟨false, some 1⟩] = .error .invalidRange := rfl

example :
    main ⟨some "0", true, true⟩ [⟨false, some 1⟩] =
      .ok ⟨[Event.startSession, Event.sessionStatus], 0, false, false⟩ := rfl

end Harness

/-! ## The tool adapters of `store_agent.create_store_tools`

The seven LangChain tools each build a request, dispatch it to the
remote basket service, and return a string: the pydantic serialization
of the response on success, or the `error_json` shape when `dispatch`
raises. The remote service (`store_api.dispatch`) is abstracted as a
function from requests to outcomes. -/

/-- A JSON-serializable Python value as pydantic produces it. -/
inductive PyVal where
  | pnone
  | pint (n : Int)
  | pstr (s : String)
  | pbool (b : Bool)
  | plist (xs : List PyVal)

/-- Is this value Python's `None`? (`exclude_none` keys on exactly this.) -/
def PyVal.isNone : PyVal → Bool
  | .pnone => true
  | _ => false

/-- JSON string escaping for the characters the repository can emit. -/
def jsonEscapeChar (c : Char) : String :=
  if c = '"' then "\\\""
  else if c = '\\' then "\\\\"
  else if c = '\n' then "\\n"
  else if c = '\t' then "\\t"
  else if c = '\r' then "\\r"
  else String.singleton c

/-- A JSON string literal. -/
def jsonStr (s : String) : String :=
  "\"" ++ String.join (s.toList.map jsonEscapeChar) ++ "\""

mutual

/-- Compact JSON rendering of a `PyVal` (pydantic's separators). -/
def render : PyVal → String
  | .pnone => "null"
  | .pint n => toString n
  | .pstr s => jsonStr s
  | .pbool b => if b then "true" else "false"
  | .plist xs => "[" ++ renderList xs ++ "]"

/-- Comma-joined rendering of a list of values. -/
def renderList : List PyVal → String
  | [] => ""
  | [x] => render x
  | x :: y :: xs => render x ++ "," ++ renderList (y :: xs)

end

/-- One field of a pydantic response model: its name, whether it was
explicitly set (pydantic's `model_fields_set`), and its value. -/
structure PyField where
  name : String
  isSet : Bool
  val : PyVal

/-- The fields that survive
`model_dump_json(exclude_none=True, exclude_unset=True)`:
exactly the fields that were explicitly set and are not `None`. -/
def dumpFields (fields : List PyField) : List PyField :=
  fields.filter (fun f => f.isSet && !(f.val.isNone))

/-- The keys of the JSON object the serialization produces. -/
def dumpKeys (fields : List PyField) : List String :=
  (dumpFields fields).map (fun f => f.name)

/-- Model of pydantic's
`result.model_dump_json(exclude_none=True, exclude_unset=True)`:
a compact JSON object over `dumpFields`. -/
def model_dump_json (fields : List PyField) : String :=
  "\x7b" ++ String.intercalate ","
    ((dumpFields fields).map (fun f => jsonStr f.name ++ ":" ++ render f.val)) ++ "\x7d"

/-- Model of `store_agent.error_json`
(`json.dumps({"error": message})`, Python default separators). -/
def error_json (message : String) : String :=
  "\x7b" ++ jsonStr "error" ++ ": " ++ jsonStr message ++ "\x7d"

/-- The request objects the adapters construct (`store.Req_*`). -/
inductive Req where
  | listProducts (offset limit : Int)
  | viewBasket
  | addProductToBasket (sku : String) (quantity : Int)
  | removeItemFromBasket (sku : String) (quantity : Int)
  | applyCoupon (coupon : String)
  | removeCoupon
  | checkoutBasket
  deriving DecidableEq, Repr

/-- What `store_api.dispatch(req)` can do: return a pydantic response
(its list of fields), raise a domain `ApiException` carrying a `detail`
string, or raise any other exception carrying its `str(e)` rendering. -/
inductive DispatchOutcome where
  | ok (resp : List PyField)
  | apiExn (detail : String)
  | otherExn (msg : String)

/-- The environment an adapter runs against. -/
def Dispatch : Type := Req → DispatchOutcome

/-- Tool `list_products` (store_agent.py 102-126): dispatch
`Req_ListProducts(offset, limit)`; serialize the response, or flatten
either exception kind into `error_json`. -/
def list_products (dispatch : Dispatch) (offset limit : Int) : String :=
  match dispatch (Req.listProducts offset limit) with
  | .ok result => model_dump_json result
  | .apiExn e => error_json e
  | .otherExn e => error_json e

/-- Tool `view_basket` (store_agent.py 128-148). -/
def view_basket (dispatch : Dispatch) : String :=
  match dispatch Req.viewBasket with
  | .ok result => model_dump_json result
  | .apiExn e => error_json e
  | .otherExn e => error_json e

/-- Tool `add_product_to_basket` (store_agent.py 150-174). -/
def add_product_to_basket (dispatch : Dispatch) (sku : String) (quantity : Int) : String :=
  match dispatch (Req.addProductToBasket sku quantity) with
  | .ok result => model_dump_json result
  | .apiExn e => error_json e
  | .otherExn e => error_json e

/-- Tool `remove_item_from_basket` (store_agent.py 176-200). -/
def remove_item_from_basket (dispatch : Dispatch) (sku : String) (quantity : Int) : String :=
  match dispatch (Req.removeItemFromBasket sku quantity) with
  | .ok result => model_dump_json result
  | .apiExn e => error_json e
  | .otherExn e => error_json e

/-- Tool `apply_coupon` (store_agent.py 202-225). -/
def apply_coupon (dispatch : Dispatch) (coupon : String) : String :=
  match dispatch (Req.applyCoupon coupon) with
  | .ok result => model_dump_json result
  | .apiExn e => error_json e
  | .otherExn e => error_json e

/-- Tool `remove_coupon` (store_agent.py 227-247). -/
def remove_coupon (dispatch : Dispatch) : String :=
  match dispatch Req.removeCoupon with
  | .ok result => model_dump_json result
  | .apiExn e => error_json e
  | .otherExn e => error_json e

/-- Tool `checkout_basket` (store_agent.py 249-269). -/
def checkout_basket (dispatch : Dispatch) : String :=
  match dispatch Req.checkoutBasket with
  | .ok result => model_dump_json result
  | .apiExn e => error_json e
  | .otherExn e => error_json e

example : error_json "boom" = "\x7b\"error\": \"boom\"\x7d" := rfl

example :
    view_basket (fun _ => DispatchOutcome.ok
      [⟨"Items", true, PyVal.plist []⟩, ⟨"Coupon", true, PyVal.pnone⟩,
       ⟨"Discount", false, PyVal.pint 0⟩, ⟨"Total", true, PyVal.pint 35⟩]) =
    "\x7b\"Items\":[],\"Total\":35\x7d" := rfl

example :
    checkout_basket (fun _ => DispatchOutcome.apiExn "basket is empty") =
    "\x7b\"error\": \"basket is empty\"\x7d" := rfl

/-! ## Helper lemmas about the task loop -/

/-- Default entry for positional access into a run list. -/
def dfltP : Nat × TaskOutcome := (0, ⟨false, none⟩)

/-- Replaces the `agentError` marker by `runAgentOk`, leaving every other
event unchanged. -/
def scrub : Event → Event
  | .agentError n => .runAgentOk n
  | e => e

/-- The same task with the agent exception suppressed. -/
def calmPair (p : Nat × TaskOutcome) : Nat × TaskOutcome :=
  (p.1, ⟨false, p.2.evalScore⟩)

lemma taskBlock_calmPair (p : Nat × TaskOutcome) :
    taskBlock (calmPair p) = (taskBlock p).map scrub := by
  cases p with
  | mk n t =>
    cases t with
    | mk b ev =>
      cases b <;> simp [taskBlock, calmPair, scrub]

lemma scoreOf_calmPair (p : Nat × TaskOutcome) : scoreOf (calmPair p).2 = scoreOf p.2 := rfl

lemma runTasks_trace_blocks (s : Bool) (l : List (Nat × TaskOutcome)) :
    (runTasks s l).1 = ((l.take (runTasks s l).2.1).map taskBlock).flatten := by
  induction l with
  | nil => simp [runTasks]
  | cons p rest ih =>
    by_cases h : (s && (scoreOf p.2 == 0)) = true
    · simp [runTasks, h]
    · simp only [runTasks, h, if_false, Bool.false_eq_true]
      simp [List.take_succ_cons, ih]

lemma runTasks_count_of_not_stopped (s : Bool) (l : List (Nat × TaskOutcome))
    (h : (runTasks s l).2.2 = false) : (runTasks s l).2.1 = l.length := by
  induction l with
  | nil => simp [runTasks]
  | cons p rest ih =>
    by_cases hs : (s && (scoreOf p.2 == 0)) = true
    · simp [runTasks, hs] at h
    · simp only [runTasks, hs, if_false, Bool.false_eq_true] at h ⊢
      simp [ih h]

lemma runTasks_false (l : List (Nat × TaskOutcome)) :
    runTasks false l = ((l.map taskBlock).flatten, l.length, false) := by
  induction l with
  | nil => simp [runTasks]
  | cons p rest ih => simp [runTasks, ih]

lemma runTasks_stop_at (l : List (Nat × TaskOutcome)) (k : Nat)
    (hk : k < l.length)
    (hpre : ∀ i, i < k → scoreOf ((l.getD i dfltP).2) ≠ 0)
    (hz : scoreOf ((l.getD k dfltP).2) = 0) :
    runTasks true l = (((l.take (k + 1)).map taskBlock).flatten, k + 1, true) := by
  induction l generalizing k with
  | nil => simp at hk
  | cons p rest ih =>
    cases k with
    | zero =>
      simp only [List.getD_cons_zero] at hz
      simp [runTasks, hz]
    | succ k =>
      have hp : scoreOf p.2 ≠ 0 := by
        have := hpre 0 (Nat.succ_pos k)
        simpa using this
      have hcond : (true && (scoreOf p.2 == 0)) = false := by
        simp [hp]
      simp only [runTasks, hcond, Bool.false_eq_true, if_false]
      have hrest := ih k (by simpa using hk)
        (fun i hi => by simpa using hpre (i + 1) (Nat.succ_lt_succ hi))
        (by simpa using hz)
      simp [hrest, List.take_succ_cons]

lemma submitSession_not_mem_taskBlock (p : Nat × TaskOutcome) :
    Event.submitSession ∉ taskBlock p := by
  cases hb : p.2.agentRaises <;> simp [taskBlock, hb]

lemma startTask_mem_taskBlock_iff (n : Nat) (p : Nat × TaskOutcome) :
    Event.startTask n ∈ taskBlock p ↔ n = p.1 := by
  cases hb : p.2.agentRaises <;> simp [taskBlock, hb]

lemma completeTask_mem_taskBlock (p : Nat × TaskOutcome) :
    Event.completeTask p.1 ∈ taskBlock p := by
  cases hb : p.2.agentRaises <;> simp [taskBlock, hb]

lemma submitSession_not_in_runTasks (s : Bool) (l : List (Nat × TaskOutcome)) :
    Event.submitSession ∉ (runTasks s l).1 := by
  induction l with
  | nil => simp [runTasks]
  | cons p rest ih =>
    by_cases h : (s && (scoreOf p.2 == 0)) = true
    · simp only [runTasks, h, if_true]
      exact submitSession_not_mem_taskBlock p
    · simp only [runTasks, h, Bool.false_eq_true, if_false]
      rw [List.mem_append]
      rintro (hmem | hmem)
      · exact submitSession_not_mem_taskBlock p hmem
      · exact ih hmem

lemma completeTask_of_startTask (s : Bool) (l : List (Nat × TaskOutcome)) (n : Nat)
    (h : Event.startTask n ∈ (runTasks s l).1) :
    Event.completeTask n ∈ (runTasks s l).1 := by
  induction l with
  | nil => simp [runTasks] at h
  | cons p rest ih =>
    by_cases hs : (s && (scoreOf p.2 == 0)) = true
    · simp only [runTasks, hs, if_true] at h ⊢
      rw [startTask_mem_taskBlock_iff] at h
      subst h
      exact completeTask_mem_taskBlock p
    · simp only [runTasks, hs, Bool.false_eq_true, if_false] at h ⊢
      rw [List.mem_append] at h ⊢
      rcases h with h | h
      · rw [startTask_mem_taskBlock_iff] at h
        subst h
        exact Or.inl (completeTask_mem_taskBlock p)
      · exact Or.inr (ih h)

lemma runTasks_calm (s : Bool) (l : List (Nat × TaskOutcome)) :
    runTasks s (l.map calmPair) = ((runTasks s l).1.map scrub, (runTasks s l).2) := by
  induction l with
  | nil => simp [runTasks]
  | cons p rest ih =>
    by_cases h : (s && (scoreOf p.2 == 0)) = true
    · simp only [List.map_cons, runTasks, scoreOf_calmPair, h, if_true]
      simp [taskBlock_calmPair]
    · simp only [List.map_cons, runTasks, scoreOf_calmPair, h, Bool.false_eq_true, if_false]
      simp [taskBlock_calmPair, ih]

/-! ## Parsing helper lemmas -/

lemma parse_task_range_dash (arg : String) (max_tasks : Nat)
    (h : arg.toList.contains '-' = true) :
    parse_task_range arg max_tasks =
      segRange ((splitOnDash arg.toList).getD 0 [])
        ((splitOnDash arg.toList).getD 1 []) max_tasks := by
  simp only [parse_task_range, parseStartEnd, segRange, h, if_true]
  cases h0 : pyIntChars ((splitOnDash arg.toList).getD 0 []) <;>
    cases h1 : pyIntChars ((splitOnDash arg.toList).getD 1 []) <;>
      simp only [h0, h1]

/-! ## Claims -/

/-- Claim C2: `parse_task_range` maps `"3"` to `(3, 3)` (whenever the
session has at least 3 tasks) and `"1-5"` to `(1, 5)` (whenever it has at
least 5); and whenever the extracted pair has `start < 1`,
`end > max_tasks`, or `start > end`, it raises a `ValueError` instead of
returning a pair. -/
theorem c2_parse_task_range :
    (∀ max_tasks : Nat, 3 ≤ max_tasks → parse_task_range "3" max_tasks = .ok (3, 3)) ∧
    (∀ max_tasks : Nat, 5 ≤ max_tasks → parse_task_range "1-5" max_tasks = .ok (1, 5)) ∧
    (∀ (arg : String) (max_tasks : Nat) (s e : Int),
      parseStartEnd arg = .ok (s, e) →
      s < 1 ∨ e > (max_tasks : Int) ∨ s > e →
      parse_task_range arg max_tasks = .error .invalidRange) := by
  refine ⟨?_, ?_, ?_⟩
  · intro m hm
    have hp : parseStartEnd "3" = Except.ok (3, 3) := rfl
    simp only [parse_task_range, hp]
    rw [if_neg]
    push_neg
    exact ⟨by norm_num, by exact_mod_cast hm, by norm_num⟩
  · intro m hm
    have hp : parseStartEnd "1-5" = Except.ok (1, 5) := rfl
    simp only [parse_task_range, hp]
    rw [if_neg]
    push_neg
    exact ⟨by norm_num, by exact_mod_cast hm, by norm_num⟩
  · intro arg m s e hp hcond
    simp only [parse_task_range, hp]
    rw [if_pos hcond]

/-- Witness for C2 at a five-task session. -/
theorem c2_parse_task_range_w :
    parse_task_range "3" 5 = .ok (3, 3) ∧
    parse_task_range "1-5" 5 = .ok (1, 5) ∧
    parse_task_range "2-9" 5 = .error .invalidRange :=
  ⟨c2_parse_task_range.1 5 (by norm_num),
   c2_parse_task_range.2.1 5 (by norm_num),
   c2_parse_task_range.2.2 "2-9" 5 2 9 rfl (by norm_num)⟩

/-- Claim C8: when the argument contains a `-`, only the first two
`-`-separated segments reach `int()` and the validation, so
`"1-2-3"` parses as `(1, 2)`; and whenever the first or second segment is
not a decimal integer — including `"-3"`, whose first segment is empty —
the `int()` conversion fails (Python `ValueError`) before the range
validation runs, for every `max_tasks`. The same holds for a dash-free
argument that is not a decimal integer. -/
theorem c8_first_two_segments :
    parse_task_range "1-2-3" 5 = .ok (1, 2) ∧
    (∀ (arg : String) (max_tasks : Nat), arg.toList.contains '-' = true →
      parse_task_range arg max_tasks =
        segRange ((splitOnDash arg.toList).getD 0 [])
          ((splitOnDash arg.toList).getD 1 []) max_tasks) ∧
    (∀ (arg : String) (max_tasks : Nat), arg.toList.contains '-' = true →
      (pyIntChars ((splitOnDash arg.toList).getD 0 []) = none ∨
       pyIntChars ((splitOnDash arg.toList).getD 1 []) = none) →
      parse_task_range arg max_tasks = .error .intParseError) ∧
    (∀ (arg : String) (max_tasks : Nat), arg.toList.contains '-' = false →
      pyInt arg = none → parse_task_range arg max_tasks = .error .intParseError) ∧
    ((splitOnDash "-3".toList).getD 0 [] = [] ∧
     pyIntChars ([] : List Char) = none ∧
     ∀ max_tasks : Nat, parse_task_range "-3" max_tasks = .error .intParseError) := by
  refine ⟨rfl, parse_task_range_dash, ?_, ?_, rfl, rfl, fun _ => rfl⟩
  · intro arg m hdash hfail
    rw [parse_task_range_dash arg m hdash]
    rcases hfail with hf | hf
    · simp only [segRange, hf]
    · simp only [segRange, hf]
      cases pyIntChars ((splitOnDash arg.toList).getD 0 []) <;> rfl
  · intro arg m hdash hfail
    simp only [parse_task_range, parseStartEnd, hdash, Bool.false_eq_true, if_false, hfail]

/-- Witness for C8 on `"7-1-9"` (segments `7`,`1` reach validation),
`"x-2"` (non-integer first segment) and `"q"` (dash-free non-integer). -/
theorem c8_first_two_segments_w :
    parse_task_range "7-1-9" 9 = segRange "7".toList "1".toList 9 ∧
    parse_task_range "x-2" 4 = .error .intParseError ∧
    parse_task_range "q" 4 = .error .intParseError :=
  ⟨c8_first_two_segments.2.1 "7-1-9" 9 rfl,
   c8_first_two_segments.2.2.1 "x-2" 4 rfl (Or.inl rfl),
   c8_first_two_segments.2.2.2.1 "q" 4 rfl rfl⟩

lemma runTasks_no_zero (l : List (Nat × TaskOutcome))
    (h : ∀ p ∈ l, scoreOf p.2 ≠ 0) :
    runTasks true l = ((l.map taskBlock).flatten, l.length, false) := by
  induction l with
  | nil => simp [runTasks]
  | cons p rest ih =>
    have hp : (true && (scoreOf p.2 == 0)) = false := by
      simp [h p (List.mem_cons_self p rest)]
    simp only [runTasks, hp, Bool.false_eq_true, if_false]
    simp [ih (fun q hq => h q (List.mem_cons_of_mem p hq))]

/-- Claim C10: list mode (`-l`) is not side-effect-free: `main` starts a
session and queries its status before the list check, then returns with
no task started or run and the session left unsubmitted — whatever `-t`
and `-s` say and whatever the tasks would have scored. -/
theorem c10_list_mode (t : Option String) (s : Bool) (outcomes : List TaskOutcome) :
    Harness.main ⟨t, s, true⟩ outcomes =
      .ok ⟨[Event.startSession, Event.sessionStatus], 0, false, false⟩ := rfl

/-- Claim C7: task execution is strictly sequential. The trace of the run
loop is exactly the in-order concatenation of one complete
`taskBlock` — `start_task`, the agent run, `complete_task` — per task,
over precisely the first `completed_count` entries of the selected run
list: an earlier task's `complete_task` always precedes a later task's
`start_task`, and no later task ever starts before an earlier one ends. -/
theorem c7_sequential (s : Bool) (l : List (Nat × TaskOutcome)) :
    (runTasks s l).1 = ((l.take (runTasks s l).2.1).map taskBlock).flatten :=
  runTasks_trace_blocks s l

/-- Claim C5: with `-s` set, the loop stops exactly at the first
zero-scored task: every task up to and including it runs (`k + 1` tasks
when the first zero is at index `k`), nothing after it is started, and
`stopped_early` is set; a run whose selected tasks all score nonzero
runs them all without stopping; with `-s` unset every selected task runs
and a zero score never stops the loop. -/
theorem c5_stop_on_fail :
    (∀ (l : List (Nat × TaskOutcome)) (k : Nat),
      k < l.length →
      (∀ i, i < k → scoreOf ((l.getD i dfltP).2) ≠ 0) →
      scoreOf ((l.getD k dfltP).2) = 0 →
      runTasks true l = (((l.take (k + 1)).map taskBlock).flatten, k + 1, true)) ∧
    (∀ l : List (Nat × TaskOutcome),
      (∀ p ∈ l, scoreOf p.2 ≠ 0) →
      runTasks true l = ((l.map taskBlock).flatten, l.length, false)) ∧
    (∀ l : List (Nat × TaskOutcome),
      runTasks false l = ((l.map taskBlock).flatten, l.length, false)) :=
  ⟨runTasks_stop_at, runTasks_no_zero, runTasks_false⟩

/-- Witness for C5: three tasks scoring 1, 0, 5; with `-s` the run stops
after the second task. -/
theorem c5_stop_on_fail_w :
    runTasks true [(1, ⟨false, some 1⟩), (2, ⟨false, some 0⟩), (3, ⟨false, some 5⟩)] =
      ([Event.startTask 1, Event.runAgentOk 1, Event.completeTask 1,
        Event.startTask 2, Event.runAgentOk 2, Event.completeTask 2], 2, true) ∧
    runTasks false [(1, ⟨false, some 0⟩)] =
      ([Event.startTask 1, Event.runAgentOk 1, Event.completeTask 1], 1, false) :=
  ⟨c5_stop_on_fail.1 [(1, ⟨false, some 1⟩), (2, ⟨false, some 0⟩), (3, ⟨false, some 5⟩)] 1
      (by norm_num)
      (by
        intro i hi
        have hz : i = 0 := Nat.lt_one_iff.mp hi
        subst hz
        decide)
      (by decide),
   c5_stop_on_fail.2.2 [(1, ⟨false, some 0⟩)]⟩

/-- Claim C9: a completed task with no evaluation is scored 0 by the
runner, so with `-s` set the loop also stops at the first task whose
evaluation is missing — exactly as it does at an actual zero score. -/
theorem c9_missing_eval_stops :
    (∀ b : Bool, scoreOf ⟨b, none⟩ = 0) ∧
    (∀ (l : List (Nat × TaskOutcome)) (k : Nat),
      k < l.length →
      (∀ i, i < k → scoreOf ((l.getD i dfltP).2) ≠ 0) →
      ((l.getD k dfltP).2).evalScore = none →
      runTasks true l = (((l.take (k + 1)).map taskBlock).flatten, k + 1, true)) := by
  refine ⟨fun _ => rfl, ?_⟩
  intro l k hk hpre hnone
  refine runTasks_stop_at l k hk hpre ?_
  unfold scoreOf
  rw [hnone]

/-- Witness for C9: the very first task raised and has no evaluation;
with `-s` the run stops immediately after it. -/
theorem c9_missing_eval_stops_w :
    scoreOf ⟨true, none⟩ = 0 ∧
    runTasks true [(1, ⟨true, none⟩), (2, ⟨false, some 7⟩)] =
      ([Event.startTask 1, Event.agentError 1, Event.completeTask 1], 1, true) :=
  ⟨c9_missing_eval_stops.1 true,
   c9_missing_eval_stops.2 [(1, ⟨true, none⟩), (2, ⟨false, some 7⟩)] 0
     (by norm_num)
     (fun i hi => absurd hi (Nat.not_lt_zero i))
     rfl⟩

/-- Claim C4: an exception raised by `run_agent` is caught inside the
loop body and never escapes: (1) every task whose `start_task` appears in
the loop trace also has its `complete_task` there — raising tasks
included; (2) the run with all exceptions suppressed produces the very
same completion count, stop flag, and trace up to replacing each
`agentError` marker by `runAgentOk` — so an exception never changes the
control flow of the session; (3) after a caught exception the loop
proceeds to the next task exactly as for a normal task, unless the
loop's own stop-on-fail rule ends the run. -/
theorem c4_exception_contained :
    (∀ (s : Bool) (l : List (Nat × TaskOutcome)) (n : Nat),
      Event.startTask n ∈ (runTasks s l).1 → Event.completeTask n ∈ (runTasks s l).1) ∧
    (∀ (s : Bool) (l : List (Nat × TaskOutcome)),
      runTasks s (l.map calmPair) = ((runTasks s l).1.map scrub, (runTasks s l).2)) ∧
    (∀ (s : Bool) (p : Nat × TaskOutcome) (rest : List (Nat × TaskOutcome)),
      (s = true → scoreOf p.2 ≠ 0) →
      runTasks s (p :: rest) =
        (taskBlock p ++ (runTasks s rest).1,
         (runTasks s rest).2.1 + 1, (runTasks s rest).2.2)) := by
  refine ⟨completeTask_of_startTask, runTasks_calm, ?_⟩
  intro s p rest h
  have hc : (s && (scoreOf p.2 == 0)) = false := by
    cases s with
    | false => rfl
    | true => simp [h rfl]
  simp [runTasks, hc]

/-- Witness for C4: a raising task is still completed, and the loop
moves on to the task after it. -/
theorem c4_exception_contained_w :
    Event.completeTask 1 ∈ (runTasks false [(1, ⟨true, none⟩), (2, ⟨false, some 3⟩)]).1 ∧
    runTasks false [(1, ⟨true, none⟩), (2, ⟨false, some 3⟩)] =
      (taskBlock (1, ⟨true, none⟩) ++
        (runTasks false [(2, ⟨false, some 3⟩)]).1,
       (runTasks false [(2, ⟨false, some 3⟩)]).2.1 + 1,
       (runTasks false [(2, ⟨false, some 3⟩)]).2.2) :=
  ⟨c4_exception_contained.1 false [(1, ⟨true, none⟩), (2, ⟨false, some 3⟩)] 1 (by decide),
   c4_exception_contained.2.2 false (1, ⟨true, none⟩) [(2, ⟨false, some 3⟩)]
     (fun hf => absurd hf (by decide))⟩

/-- Claim C1 is false as stated: here every task of the full set (the
single task of the session) ran to completion with score 1 and no
stop-on-fail break occurred, yet because the run was invoked with
`-t 1` the session is NOT submitted — `submit_session` is guarded by
`run_all` (`args.task is None`), not by "every task ran". -/
theorem c1_counterexample :
    Harness.main ⟨some "1", false, false⟩ [⟨false, some 1⟩] =
      .ok ⟨[Event.startSession, Event.sessionStatus, Event.startTask 1,
            Event.runAgentOk 1, Event.completeTask 1], 1, false, false⟩ := rfl

/-- Claim C1 (amended): the session is submitted iff the run was invoked
without `-l` and without any `-t` restriction and no stop-on-fail break
occurred; `submit_session` is called exactly when the `submitted` flag
holds, and a submitted run did complete every task of the set. A run
whose `-t` selection happens to cover the whole set is never
submitted. -/
theorem c1_submitted_iff (args : Args) (outcomes : List TaskOutcome) (r : MainResult)
    (h : Harness.main args outcomes = .ok r) :
    (r.submitted = true ↔
      args.listTasks = false ∧ args.task = none ∧ r.stoppedEarly = false) ∧
    (Event.submitSession ∈ r.trace ↔ r.submitted = true) ∧
    (r.submitted = true → r.completedCount = outcomes.length) := by
  obtain ⟨t, sf, lm⟩ := args
  cases lm with
  | true =>
    simp only [Harness.main, if_true] at h
    injection h with h
    subst h
    simp
  | false =>
    cases t with
    | none =>
      simp only [Harness.main, tasksToRun, Option.isNone_none, Bool.true_and,
        Bool.false_eq_true, if_false] at h
      injection h with h
      subst h
      cases hst : (runTasks sf (outcomes.enum.map fun p => (p.1 + 1, p.2))).2.2 with
      | false =>
        have hc := runTasks_count_of_not_stopped sf
          (outcomes.enum.map fun p => (p.1 + 1, p.2)) hst
        simp [hst, hc, submitSession_not_in_runTasks]
      | true =>
        simp [hst, submitSession_not_in_runTasks]
    | some a =>
      simp only [Harness.main, tasksToRun, Option.isNone_some, Bool.false_and,
        Bool.false_eq_true, if_false] at h
      cases hp : parse_task_range a outcomes.length with
      | error e =>
        rw [hp] at h
        exact absurd h (by simp)
      | ok se =>
        rw [hp] at h
        injection h with h
        subst h
        simp [submitSession_not_in_runTasks]

/-- Witness for the amended C1: an unrestricted two-task run with no
stop: submitted, with every task completed. -/
theorem c1_submitted_iff_w :
    (MainResult.mk [Event.startSession, Event.sessionStatus, Event.startTask 1,
        Event.runAgentOk 1, Event.completeTask 1, Event.startTask 2,
        Event.runAgentOk 2, Event.completeTask 2, Event.submitSession]
        2 false true).submitted = true ↔
      (Args.mk none false false).listTasks = false ∧
      (Args.mk none false false).task = none ∧
      (MainResult.mk [Event.startSession, Event.sessionStatus, Event.startTask 1,
        Event.runAgentOk 1, Event.completeTask 1, Event.startTask 2,
        Event.runAgentOk 2, Event.completeTask 2, Event.submitSession]
        2 false true).stoppedEarly = false :=
  (c1_submitted_iff ⟨none, false, false⟩ [⟨false, some 1⟩, ⟨false, some 2⟩] _ rfl).1

/-- Claim C3: whenever `dispatch` fails — as a domain `ApiException`
carrying `detail = d` or as any other exception rendering to `d` — every
one of the seven tool adapters returns the uniform JSON string
`error_json d` instead of propagating the exception; the two error
kinds produce the identical return value and are indistinguishable to
the agent. -/
theorem c3_uniform_error_shape (dispatch : Dispatch) (d : String)
    (h : ∀ r, dispatch r = .apiExn d ∨ dispatch r = .otherExn d)
    (offset limit quantity : Int) (sku coupon : String) :
    list_products dispatch offset limit = error_json d ∧
    view_basket dispatch = error_json d ∧
    add_product_to_basket dispatch sku quantity = error_json d ∧
    remove_item_from_basket dispatch sku quantity = error_json d ∧
    apply_coupon dispatch coupon = error_json d ∧
    remove_coupon dispatch = error_json d ∧
    checkout_basket dispatch = error_json d := by
  refine ⟨?_, ?_, ?_, ?_, ?_, ?_, ?_⟩
  · rcases h (Req.listProducts offset limit) with hh | hh <;> simp [list_products, hh]
  · rcases h Req.viewBasket with hh | hh <;> simp [view_basket, hh]
  · rcases h (Req.addProductToBasket sku quantity) with hh | hh <;>
      simp [add_product_to_basket, hh]
  · rcases h (Req.removeItemFromBasket sku quantity) with hh | hh <;>
      simp [remove_item_from_basket, hh]
  · rcases h (Req.applyCoupon coupon) with hh | hh <;> simp [apply_coupon, hh]
  · rcases h Req.removeCoupon with hh | hh <;> simp [remove_coupon, hh]
  · rcases h Req.checkoutBasket with hh | hh <;> simp [checkout_basket, hh]

/-- Witness for C3: a service that always raises `ApiException("boom")`. -/
theorem c3_uniform_error_shape_w :
    list_products (fun _ => DispatchOutcome.apiExn "boom") 0 10 = error_json "boom" ∧
    view_basket (fun _ => DispatchOutcome.apiExn "boom") = error_json "boom" ∧
    add_product_to_basket (fun _ => DispatchOutcome.apiExn "boom") "soda-6pk" 2 =
      error_json "boom" ∧
    remove_item_from_basket (fun _ => DispatchOutcome.apiExn "boom") "soda-6pk" 2 =
      error_json "boom" ∧
    apply_coupon (fun _ => DispatchOutcome.apiExn "boom") "SAVE5" = error_json "boom" ∧
    remove_coupon (fun _ => DispatchOutcome.apiExn "boom") = error_json "boom" ∧
    checkout_basket (fun _ => DispatchOutcome.apiExn "boom") = error_json "boom" :=
  c3_uniform_error_shape (fun _ => DispatchOutcome.apiExn "boom") "boom"
    (fun _ => Or.inl rfl) 0 10 2 "soda-6pk" "SAVE5"

/-- The spec's notion of an *empty* field value (claim C6), defined from
the spec's words — Python `None`, an empty list, or an empty string —
for comparison with what `exclude_unset`/`exclude_none` actually omit. -/
def specEmpty : PyVal → Bool
  | .pnone => true
  | .plist xs => xs.isEmpty
  | .pstr s => s.isEmpty
  | _ => false

/-- Claim C6 is false as stated: a field explicitly set to an empty
list — here `Items = []`, the shape `view_basket` returns for an empty
basket — is an empty field by the spec's wording, yet
`model_dump_json(exclude_none=True, exclude_unset=True)` keeps it, so
the adapter's returned JSON object does contain it as a key. -/
theorem c6_counterexample :
    specEmpty (PyVal.plist []) = true ∧
    view_basket (fun _ => DispatchOutcome.ok [⟨"Items", true, PyVal.plist []⟩]) =
      "\x7b\"Items\":[]\x7d" ∧
    "Items" ∈ dumpKeys [⟨"Items", true, PyVal.plist []⟩] :=
  ⟨rfl, rfl, show "Items" ∈ ["Items"] from List.mem_singleton.mpr rfl⟩

/-- Claim C6 (amended): every tool adapter serializes the successful
response to a compact JSON string whose keys omit exactly the fields
that are unset or whose value is `None` (pydantic's
`exclude_unset`/`exclude_none`); a field explicitly set to an empty
collection is retained. -/
theorem c6_serialization (fields : List PyField)
    (hnd : (fields.map PyField.name).Nodup) :
    (∀ f ∈ fields, (f.isSet = false ∨ f.val = PyVal.pnone) → f.name ∉ dumpKeys fields) ∧
    (∀ dispatch : Dispatch, (∀ r, dispatch r = .ok fields) →
      ∀ (offset limit quantity : Int) (sku coupon : String),
        list_products dispatch offset limit = model_dump_json fields ∧
        view_basket dispatch = model_dump_json fields ∧
        add_product_to_basket dispatch sku quantity = model_dump_json fields ∧
        remove_item_from_basket dispatch sku quantity = model_dump_json fields ∧
        apply_coupon dispatch coupon = model_dump_json fields ∧
        remove_coupon dispatch = model_dump_json fields ∧
        checkout_basket dispatch = model_dump_json fields) := by
  constructor
  · intro f hf hbad hmem
    simp only [dumpKeys, List.mem_map] at hmem
    obtain ⟨g, hg, hgname⟩ := hmem
    unfold dumpFields at hg
    rw [List.mem_filter] at hg
    have hgmem : g ∈ fields := hg.1
    have hgkeep : (g.isSet && !(g.val.isNone)) = true := hg.2
    have hgf : g = f := List.inj_on_of_nodup_map hnd hgmem hf hgname
    subst hgf
    rcases hbad with hb | hb
    · rw [hb] at hgkeep
      simp at hgkeep
    · rw [hb] at hgkeep
      simp [PyVal.isNone] at hgkeep
  · intro dispatch hd offset limit quantity sku coupon
    refine ⟨?_, ?_, ?_, ?_, ?_, ?_, ?_⟩ <;>
      simp [list_products, view_basket, add_product_to_basket,
        remove_item_from_basket, apply_coupon, remove_coupon, checkout_basket, hd]

/-- Witness for the amended C6: a basket view whose `Coupon` is `None`
and whose `Discount` was never set serializes to `Total` alone. -/
theorem c6_serialization_w :
    "Coupon" ∉ dumpKeys [⟨"Total", true, PyVal.pint 35⟩, ⟨"Coupon", true, PyVal.pnone⟩,
      ⟨"Discount", false, PyVal.pint 0⟩] ∧
    view_basket (fun _ => DispatchOutcome.ok
      [⟨"Total", true, PyVal.pint 35⟩, ⟨"Coupon", true, PyVal.pnone⟩,
       ⟨"Discount", false, PyVal.pint 0⟩]) = "\x7b\"Total\":35\x7d" :=
  ⟨(c6_serialization _ (by decide)).1 _
      (List.mem_cons_of_mem _ (List.mem_cons_self _ _)) (Or.inr rfl),
   ((c6_serialization _ (by decide)).2 (fun _ => DispatchOutcome.ok
      [⟨"Total", true, PyVal.pint 35⟩, ⟨"Coupon", true, PyVal.pnone⟩,
       ⟨"Discount", false, PyVal.pint 0⟩]) (fun _ => rfl) 0 10 1 "s" "c").2.1⟩
